import Mathlib

/-! AudioUnitALSA: a shallow embedding of `src/AudioUnit/AudioUnitALSA.cpp`.

The ALSA output unit bridges a pull renderer to a push PCM device.  This
development embeds the format translator (`alsaFormatForASBD`), the session
lifecycle (`initOutput`, `initInput`, `init`, `deinit`), the playback pump
(`requestDataForPlayback`) and the render adapter (`render`, `renderOutput`,
`renderInterleavedOutput`, `renderPlanarOutput`, `renderInput`).

Conventions of the embedding:

* the ALSA library and the pull renderer are external; their answers are
  supplied by scripts (a `Backend`, with its stream of write results, and a
  `Renderer`) and every call made to them is appended to the session's
  `trace`;
* C++ exceptions are explicit values, a thrown exception is `some e`;
* the `goto do_write` jump is a recursive call that consumes one unit of
  fuel, `none` means that the fuel ran out before the function returned;
* `UInt32`/`int` values are naturals and integers with explicit wrap-around.
-/

namespace Darling

/-! ## Constants of the CoreAudio, MacErrors and errno headers -/

abbrev OSStatus := Int

def noErr : OSStatus := 0
def paramErr : OSStatus := -50
def unimpErr : OSStatus := -4
def kAudioUnitErr_Initialized : OSStatus := -10849
def kAudioUnitErr_FailedInitialization : OSStatus := -10875
def kAudioUnitErr_NoConnection : OSStatus := -10876

def kOutputBus : Nat := 0
def kInputBus : Nat := 1

/-- The four-character code 'lpcm'. -/
def kAudioFormatLinearPCM : Nat := 0x6C70636D
def kAudioFormatFlagIsFloat : Nat := 1
def kAudioFormatFlagIsBigEndian : Nat := 2
def kAudioFormatFlagIsSignedInteger : Nat := 4

/-- Linux errno values used by ALSA. -/
def EINTR : Int := 4
def EPIPE : Int := 32

/-- Readiness bits of `poll.h`. -/
def POLLIN : Nat := 1
def POLLOUT : Nat := 4

deriving instance DecidableEq for Except

/-! ## Machine integers -/

/-- Value of a `UInt32` expression. -/
def toUInt32 (x : Int) : Nat := (x % 4294967296).toNat

/-- Conversion of a `UInt32` value to `int` (two's complement). -/
def toInt32 (n : Nat) : Int :=
  if n % 4294967296 < 2147483648 then ((n % 4294967296 : Nat) : Int)
  else ((n % 4294967296 : Nat) : Int) - 4294967296

/-! ## Data model -/

/-- The `snd_pcm_format_t` values the translator can return. -/
inductive SndPcmFormat where
  | S8 | U8
  | S16_LE | S16_BE | U16_LE | U16_BE
  | S24_LE | S24_BE | U24_LE | U24_BE
  | S32_LE | S32_BE | U32_LE | U32_BE
  | FLOAT_LE | FLOAT_BE
  deriving DecidableEq, Repr

/-- The `AudioStreamBasicDescription`; `mSampleRate` holds the integral
number of Hz of the `Float64` field. -/
structure AudioStreamBasicDescription where
  mSampleRate : Nat
  mFormatID : Nat
  mFormatFlags : Nat
  mBytesPerPacket : Nat
  mFramesPerPacket : Nat
  mBytesPerFrame : Nat
  mChannelsPerFrame : Nat
  mBitsPerChannel : Nat
  deriving DecidableEq, Repr

/-- The two `std::runtime_error`s thrown by `alsaFormatForASBD`, and the one
built by `throwAlsaError` (message and ALSA error code). -/
inductive Exn where
  | invalidBitsPerChannel
  | unsupportedFormatID
  | alsaError (msg : String) (errCode : Int)
  deriving DecidableEq, Repr

def isFloat (asbd : AudioStreamBasicDescription) : Bool :=
  asbd.mFormatFlags &&& kAudioFormatFlagIsFloat != 0

def isSigned (asbd : AudioStreamBasicDescription) : Bool :=
  asbd.mFormatFlags &&& kAudioFormatFlagIsSignedInteger != 0

def isBE (asbd : AudioStreamBasicDescription) : Bool :=
  asbd.mFormatFlags &&& kAudioFormatFlagIsBigEndian != 0

/-- The function `alsaFormatForASBD`. -/
def alsaFormatForASBD (asbd : AudioStreamBasicDescription) : Except Exn SndPcmFormat :=
  if asbd.mFormatID = kAudioFormatLinearPCM then
    if isFloat asbd then
      .ok (if isBE asbd then .FLOAT_BE else .FLOAT_LE)
    else
      match asbd.mBitsPerChannel with
      | 8 =>
        if isSigned asbd then .ok .S8 else .ok .U8
      | 16 =>
        if isSigned asbd then .ok (if isBE asbd then .S16_BE else .S16_LE)
        else .ok (if isBE asbd then .U16_BE else .U16_LE)
      | 24 =>
        if isSigned asbd then .ok (if isBE asbd then .S24_BE else .S24_LE)
        else .ok (if isBE asbd then .U24_BE else .U24_LE)
      | 32 =>
        if isSigned asbd then .ok (if isBE asbd then .S32_BE else .S32_LE)
        else .ok (if isBE asbd then .U32_BE else .U32_LE)
      | _ => .error .invalidBitsPerChannel
  else
    .error .unsupportedFormatID

/-- A linear-PCM descriptor with the given flags word and bit depth. -/
def pcmDescriptor (flags bits : Nat) : AudioStreamBasicDescription :=
  { mSampleRate := 48000, mFormatID := kAudioFormatLinearPCM, mFormatFlags := flags,
    mBytesPerPacket := 4, mFramesPerPacket := 1, mBytesPerFrame := 4,
    mChannelsPerFrame := 2, mBitsPerChannel := bits }

/-- The 16 integer descriptors: signedness x endianness (flag words 0, 2, 4,
6) x bit depth (8, 16, 24, 32), float flag clear. -/
def integerCombinations : List AudioStreamBasicDescription :=
  ([0, 2, 4, 6].product [8, 16, 24, 32]).map (fun p => pcmDescriptor p.1 p.2)

/-! ## Session state and the external world -/

/-- A non-null `snd_pcm_t*`. -/
abbrev PcmHandle := Nat

/-- Memory obtained from `new uint8_t[n]`: its bytes, `n` of them. -/
abbrev Block := List Nat

/-- The `snd_pcm_access_t` values used by `initOutput`. -/
inductive SndPcmAccess where
  | RW_INTERLEAVED
  | RW_NONINTERLEAVED
  deriving DecidableEq, Repr

/-- The `AudioBuffer`; `mData` is `none` for a null pointer. -/
structure AudioBuffer where
  mNumberChannels : Nat
  mDataByteSize : Nat
  mData : Option Block
  deriving DecidableEq, Repr

/-- Calls made to the ALSA library and to the pull renderer, with the
arguments the source passes (and, for the three calls that create an object,
the returned error code).  The `frames` of a write is the value of the `int`
variable `sampleCount` that the source passes, before the implicit conversion
to `snd_pcm_uframes_t`. -/
inductive Event where
  | pcmOpen (err : Int)
  | pcmClose (pcm : PcmHandle)
  | hwParamsMalloc (err : Int)
  | hwParamsFree
  | hwParamsAny
  | hwParamsSetAccess (access : SndPcmAccess)
  | hwParamsSetFormat (format : SndPcmFormat)
  | hwParamsSetRateNear (rate : Nat)
  | hwParamsSetChannels (channels : Nat)
  | hwParams
  | swParamsMalloc (err : Int)
  | swParamsFree
  | swParamsCurrent
  | swParamsSetAvailMin (frames : Nat)
  | swParamsSetStartThreshold (frames : Nat)
  | swParams
  | writei (pcm : Option PcmHandle) (data : Option Block) (frames : Int)
  | writen (pcm : Option PcmHandle) (data : List (Option Block)) (frames : Int)
  | recover (pcm : Option PcmHandle) (err : Int)
  | audioUnitRender (bus : Nat) (frames : Nat)
  | pollDescriptorsRevents
  deriving DecidableEq, Repr

/-- The fields of the `AudioUnitALSA` object that the embedded methods use.
`outputPlanar` and `inputPlanar` are the answers of the base-class predicates
`isOutputPlanar()` and `isInputPlanar()`, `inputProcSet` says whether
`m_outputCallback.inputProc` is non-null.  Two ghost fields record the
interaction with the device: `trace` lists the external calls made so far and
`writes` counts the `snd_pcm_writei`/`snd_pcm_writen` calls among them. -/
structure AudioUnitALSA where
  m_pcmOutput : Option PcmHandle
  m_pcmInput : Option PcmHandle
  m_sources : List Nat
  m_enableOutput : Bool
  m_enableInput : Bool
  m_shouldAllocateBuffer : Bool
  m_configOutputPlayback : AudioStreamBasicDescription
  m_configOutputCapture : AudioStreamBasicDescription
  outputPlanar : Bool
  inputPlanar : Bool
  inputProcSet : Bool
  trace : List Event
  writes : Nat
  deriving DecidableEq, Repr

/-- The answers of the ALSA library: the error code of each configuration
call of `initOutput` (each is made at most once per `init`), the handle
stored by a successful `snd_pcm_open`, and the value assigned to `wr` by the
k-th write call of the session. -/
structure Backend where
  pcmOpen : Int
  handle : PcmHandle
  hwParamsMalloc : Int
  hwParamsAny : Int
  hwParamsSetAccess : Int
  hwParamsSetFormat : Int
  hwParamsSetRateNear : Int
  hwParamsSetChannels : Int
  hwParams : Int
  swParamsMalloc : Int
  swParamsCurrent : Int
  swParamsSetAvailMin : Int
  swParamsSetStartThreshold : Int
  swParams : Int
  writeResult : Nat → Int

namespace AudioUnitALSA

/-- Append an external call to the trace. -/
def log (self : AudioUnitALSA) (e : Event) : AudioUnitALSA :=
  { self with trace := self.trace ++ [e] }

/-- Append a device write to the trace and count it. -/
def logWrite (self : AudioUnitALSA) (e : Event) : AudioUnitALSA :=
  { self with trace := self.trace ++ [e], writes := self.writes + 1 }

/-- Assignment to `m_pcmOutput`. -/
def setPcmOutput (self : AudioUnitALSA) (pcm : Option PcmHandle) : AudioUnitALSA :=
  { self with m_pcmOutput := pcm }

/-- Assignment to `m_pcmInput`. -/
def setPcmInput (self : AudioUnitALSA) (pcm : Option PcmHandle) : AudioUnitALSA :=
  { self with m_pcmInput := pcm }

/-! ## Lifecycle: `initOutput`, `initInput`, `init`, `deinit` -/

/-- The locals `hw_params` and `sw_params` of `initOutput`: `true` when the
pointer is non-null. -/
structure InitLocals where
  hw_params : Bool
  sw_params : Bool
  deriving DecidableEq, Repr

/-- The `try` block of `initOutput`.  The result is the exception thrown, if
any, with the locals and the object as they are when the block is left.  A
failing `snd_pcm_open` leaves `m_pcmOutput` as it was and a failing
`snd_pcm_*_params_malloc` leaves the pointer null, as alsa-lib does. -/
def initOutputTry (be : Backend) (self : AudioUnitALSA) :
    Option Exn × InitLocals × AudioUnitALSA :=
  let l : InitLocals := { hw_params := false, sw_params := false }
  let rate := self.m_configOutputPlayback.mSampleRate
  let self := self.log (.pcmOpen be.pcmOpen)
  if be.pcmOpen ≠ 0 then
    (some (.alsaError "Failed to initialize playback PCM" be.pcmOpen), l, self)
  else
  let self := self.setPcmOutput (some be.handle)
  let self := self.log (.hwParamsMalloc be.hwParamsMalloc)
  if be.hwParamsMalloc ≠ 0 then
    (some (.alsaError "Failed to alloc hw params" be.hwParamsMalloc), l, self)
  else
  let l := { l with hw_params := true }
  let self := self.log .hwParamsAny
  if be.hwParamsAny ≠ 0 then
    (some (.alsaError "Failed to init hw params" be.hwParamsAny), l, self)
  else
  let self :=
    if self.outputPlanar then self.log (.hwParamsSetAccess .RW_NONINTERLEAVED)
    else self.log (.hwParamsSetAccess .RW_INTERLEAVED)
  if be.hwParamsSetAccess ≠ 0 then
    (some (.alsaError "Failed to set interleaved access" be.hwParamsSetAccess), l, self)
  else
  match alsaFormatForASBD self.m_configOutputPlayback with
  | .error e => (some e, l, self)
  | .ok format =>
  let self := self.log (.hwParamsSetFormat format)
  if be.hwParamsSetFormat ≠ 0 then
    (some (.alsaError "Failed to set format" be.hwParamsSetFormat), l, self)
  else
  let self := self.log (.hwParamsSetRateNear rate)
  if be.hwParamsSetRateNear ≠ 0 then
    (some (.alsaError "Failed to set sample rate" be.hwParamsSetRateNear), l, self)
  else
  let self := self.log (.hwParamsSetChannels self.m_configOutputPlayback.mChannelsPerFrame)
  if be.hwParamsSetChannels ≠ 0 then
    (some (.alsaError "Failed to set channel count" be.hwParamsSetChannels), l, self)
  else
  let self := self.log .hwParams
  if be.hwParams ≠ 0 then
    (some (.alsaError "Failed to set HW parameters" be.hwParams), l, self)
  else
  let self := self.log .hwParamsFree
  let l := { l with hw_params := false }
  let self := self.log (.swParamsMalloc be.swParamsMalloc)
  if be.swParamsMalloc ≠ 0 then
    (some (.alsaError "Failed to alloc sw params" be.swParamsMalloc), l, self)
  else
  let l := { l with sw_params := true }
  let self := self.log .swParamsCurrent
  if be.swParamsCurrent ≠ 0 then
    (some (.alsaError "Failed to init sw params" be.swParamsCurrent), l, self)
  else
  let self := self.log (.swParamsSetAvailMin 4096)
  if be.swParamsSetAvailMin ≠ 0 then
    (some (.alsaError "snd_pcm_sw_params_set_avail_min() failed" be.swParamsSetAvailMin), l, self)
  else
  let self := self.log (.swParamsSetStartThreshold 0)
  if be.swParamsSetStartThreshold ≠ 0 then
    (some (.alsaError "snd_pcm_sw_params_set_start_threshold() failed"
      be.swParamsSetStartThreshold), l, self)
  else
  let self := self.log .swParams
  if be.swParams ≠ 0 then
    (some (.alsaError "Failed to set SW parameters" be.swParams), l, self)
  else
  let self := self.log .swParamsFree
  let l := { l with sw_params := false }
  (none, l, self)

/-- The method `initOutput`: the `try` block, and the `catch (...)` handler
that frees the parameter objects still held and rethrows. -/
def initOutput (be : Backend) (self : AudioUnitALSA) : Option Exn × AudioUnitALSA :=
  match initOutputTry be self with
  | (none, _, self) => (none, self)
  | (some e, l, self) =>
    let self := if l.hw_params then self.log .hwParamsFree else self
    let self := if l.sw_params then self.log .swParamsFree else self
    (some e, self)

/-- The method `initInput`, a stub: it opens nothing and throws nothing. -/
def initInput (self : AudioUnitALSA) : Option Exn × AudioUnitALSA :=
  (none, self)

/-- The method `deinit`. -/
def deinit (self : AudioUnitALSA) : OSStatus × AudioUnitALSA :=
  let self :=
    match self.m_pcmOutput with
    | some pcm => (self.log (.pcmClose pcm)).setPcmOutput none
    | none => self
  let self :=
    match self.m_pcmInput with
    | some pcm => (self.log (.pcmClose pcm)).setPcmInput none
    | none => self
  (noErr, self)

/-- The method `init`. -/
def init (be : Backend) (self : AudioUnitALSA) : OSStatus × AudioUnitALSA :=
  if self.m_pcmOutput.isSome || self.m_pcmInput.isSome then
    (kAudioUnitErr_Initialized, self)
  else
    match (if self.m_enableOutput then initOutput be self else (none, self)) with
    | (some _, self) => (kAudioUnitErr_FailedInitialization, (deinit self).2)
    | (none, self) =>
      match (if self.m_enableInput then initInput self else (none, self)) with
      | (some _, self) => (kAudioUnitErr_FailedInitialization, (deinit self).2)
      | (none, self) => (noErr, self)

end AudioUnitALSA

/-! ## Render adapter and device writes

The pointer arguments `ioActionFlags` and `inTimeStamp` of the render methods
are never dereferenced in this file and are left out; `ioData` is the list of
the `mNumberBuffers` buffers of the `AudioBufferList`.  The division by
`mBytesPerFrame` is undefined in the source when that field is zero. -/

/-- A write result after which the source recovers and jumps back to
`do_write`: `-EINTR` or `-EPIPE`. -/
def isTransient (wr : Int) : Prop := wr = -EINTR ∨ wr = -EPIPE

instance (wr : Int) : Decidable (isTransient wr) :=
  inferInstanceAs (Decidable (wr = -EINTR ∨ wr = -EPIPE))

namespace AudioUnitALSA

/-- The block labelled `do_write`, which `renderInterleavedOutput` (with
`snd_pcm_writei`, once per buffer) and `renderPlanarOutput` (with
`snd_pcm_writen`) both contain; `call` is the write call the block makes.
The result is `some (some status, _)` when the block returns from the method,
`some (none, _)` when control falls out of it, `none` when the fuel is used
up.  The branch `wr < sampleCount` only logs a message. -/
def doWrite (be : Backend) (call : Event) :
    Nat → AudioUnitALSA → Option (Option OSStatus × AudioUnitALSA)
  | 0, _ => none
  | fuel + 1, self =>
    let wr := be.writeResult self.writes
    let self := self.logWrite call
    if wr < 0 then
      if wr = -EINTR ∨ wr = -EPIPE then
        doWrite be call fuel (self.log (.recover self.m_pcmOutput wr))
      else
        some (some kAudioUnitErr_NoConnection, self)
    else
      some (none, self)

/-- The method `renderInterleavedOutput`. -/
def renderInterleavedOutput (be : Backend) (fuel : Nat) :
    AudioUnitALSA → Nat → List AudioBuffer → Option (OSStatus × AudioUnitALSA)
  | self, _, [] => some (noErr, self)
  | self, inNumberFrames, b :: rest =>
    let sampleCount : Int :=
      toInt32 (b.mDataByteSize / self.m_configOutputPlayback.mBytesPerFrame)
    match doWrite be (.writei self.m_pcmOutput b.mData sampleCount) fuel self with
    | none => none
    | some (some status, self) => some (status, self)
    | some (none, self) => renderInterleavedOutput be fuel self inNumberFrames rest

/-- Byte size of `ioData->mBuffers[0]`; the slot exists in every
`AudioBufferList`, for an empty list its content is taken to be zero. -/
def firstByteSize (ioData : List AudioBuffer) : Nat :=
  match ioData with
  | [] => 0
  | b :: _ => b.mDataByteSize

/-- The method `renderPlanarOutput`.  `size` is an `int`; it is converted
back to `UInt32` where the source compares it with, or divides it by, a
`UInt32`. -/
def renderPlanarOutput (be : Backend) (fuel : Nat) (self : AudioUnitALSA)
    (_inNumberFrames : Nat) (ioData : List AudioBuffer) : Option (OSStatus × AudioUnitALSA) :=
  if ioData.length ≠ self.m_configOutputCapture.mChannelsPerFrame then
    some (paramErr, self)
  else
    let size : Int := toInt32 (firstByteSize ioData)
    if (ioData.drop 1).any (fun b => toUInt32 size != b.mDataByteSize) then
      some (paramErr, self)
    else
      let bufferPointers := ioData.map (fun b => b.mData)
      let sampleCount : Int :=
        toInt32 (toUInt32 size / self.m_configOutputPlayback.mBytesPerFrame)
      match doWrite be (.writen self.m_pcmOutput bufferPointers sampleCount) fuel self with
      | none => none
      | some (some status, self) => some (status, self)
      | some (none, self) => some (noErr, self)

/-- The method `renderOutput`. -/
def renderOutput (be : Backend) (fuel : Nat) (self : AudioUnitALSA)
    (inNumberFrames : Nat) (ioData : List AudioBuffer) : Option (OSStatus × AudioUnitALSA) :=
  if !self.outputPlanar then
    renderInterleavedOutput be fuel self inNumberFrames ioData
  else
    renderPlanarOutput be fuel self inNumberFrames ioData

/-- The method `renderInterleavedInput`, a stub. -/
def renderInterleavedInput (self : AudioUnitALSA) (_inNumberFrames : Nat)
    (_ioData : List AudioBuffer) : OSStatus × AudioUnitALSA :=
  (unimpErr, self)

/-- The method `renderPlanarInput`, a stub. -/
def renderPlanarInput (self : AudioUnitALSA) (_inNumberFrames : Nat)
    (_ioData : List AudioBuffer) : OSStatus × AudioUnitALSA :=
  (unimpErr, self)

/-- The method `renderInput`. -/
def renderInput (self : AudioUnitALSA) (inNumberFrames : Nat)
    (ioData : List AudioBuffer) : OSStatus × AudioUnitALSA :=
  if !self.inputProcSet then
    (noErr, self)
  else if !self.inputPlanar then
    renderInterleavedInput self inNumberFrames ioData
  else
    renderPlanarInput self inNumberFrames ioData

/-- The method `render`. -/
def render (be : Backend) (fuel : Nat) (self : AudioUnitALSA) (inBusNumber : Nat)
    (inNumberFrames : Nat) (ioData : List AudioBuffer) : Option (OSStatus × AudioUnitALSA) :=
  if inBusNumber = kOutputBus then
    renderOutput be fuel self inNumberFrames ioData
  else if inBusNumber = kInputBus then
    some (renderInput self inNumberFrames ioData)
  else
    some (paramErr, self)

end AudioUnitALSA

/-! ## Playback pump -/

/-- The local `AudioBufferList bufs` of `requestDataForPlayback`: the buffer
count and the single `mBuffers` slot the type declares. -/
structure PumpBufferList where
  mNumberBuffers : Nat
  mBuffer0 : AudioBuffer
  deriving DecidableEq, Repr

/-- What `AudioUnitRender` hands back: its status, the buffer list as the
renderer left it, and the bytes it stored into the memory the pump supplied
(byte `i` of that memory is replaced when `stored` has an entry `i`). -/
structure RenderReply where
  err : OSStatus
  bufs : PumpBufferList
  stored : List Nat
  deriving DecidableEq, Repr

/-- The pull renderer behind `AudioUnitRender`, called with the bus, the
frame count and the buffer list. -/
abbrev Renderer := Nat → Nat → PumpBufferList → RenderReply

/-- Contents of memory the source reads or hands on without having written it:
byte `i` of a fresh `new uint8_t[n]`, and the `mNumberChannels` of the stack
slot when the pump does not allocate. -/
structure Uninitialised where
  heapByte : Nat → Nat
  mNumberChannels : Nat

/-- Undefined behaviour reached by the pump: `memset` of `written` bytes into
an allocation of `allocated` bytes, or a buffer count beyond the one slot of
the local list. -/
inductive Fault where
  | heapOverflow (allocated : Nat) (written : Nat)
  | bufferListOverrun (mNumberBuffers : Nat)
  deriving DecidableEq, Repr

/-- How `requestDataForPlayback` ends: in undefined behaviour, without a
write because the buffer is empty, or after `render` returned a status (which
the source discards). -/
inductive PumpOutcome where
  | fault (f : Fault)
  | skipped
  | rendered (status : OSStatus)
  deriving DecidableEq, Repr

/-- The expression `new uint8_t[n]`. -/
def newBytes (u : Uninitialised) (n : Nat) : Block :=
  (List.range n).map u.heapByte

/-- The pump's memory after the renderer stored into it. -/
def overlay (blk : Block) (stored : List Nat) : Block :=
  (List.range blk.length).map (fun i => stored.getD i (blk.getD i 0))

/-- The call `memset(p, 0, n)` on an allocation; `none` when `n` exceeds it. -/
def memsetZero (blk : Block) (n : Nat) : Option Block :=
  if n ≤ blk.length then some (List.replicate n 0 ++ blk.drop n) else none

namespace AudioUnitALSA

/-- The buffer list of `requestDataForPlayback` after `AudioUnitRender`
returned and the error branch ran: the list handed on, or the fault. -/
def playbackBuffers (self : AudioUnitALSA) (u : Uninitialised) (reply : RenderReply)
    (data : Option Block) : Except Fault PumpBufferList :=
  let bufs := reply.bufs
  if reply.err ≠ noErr then
    let bytes := (self.m_configOutputPlayback.mBytesPerFrame * 4096) % 4294967296
    let data : Block :=
      if !self.m_shouldAllocateBuffer then newBytes u bufs.mBuffer0.mDataByteSize
      else data.getD []
    match memsetZero data bytes with
    | none => .error (.heapOverflow data.length bytes)
    | some zeroed =>
      .ok { bufs with
        mBuffer0 := { bufs.mBuffer0 with mData := some zeroed, mDataByteSize := bytes } }
  else
    .ok bufs

/-- The method `requestDataForPlayback`; the status of the final `render`
call, which the source discards, is returned for observation. -/
def requestDataForPlayback (host : Renderer) (u : Uninitialised) (be : Backend) (fuel : Nat)
    (self : AudioUnitALSA) : Option (PumpOutcome × AudioUnitALSA) :=
  let bytes := (self.m_configOutputPlayback.mBytesPerFrame * 4096) % 4294967296
  let data : Option Block :=
    if self.m_shouldAllocateBuffer then some (newBytes u bytes) else none
  let bufs : PumpBufferList :=
    { mNumberBuffers := 1,
      mBuffer0 :=
        if self.m_shouldAllocateBuffer then
          { mNumberChannels := self.m_configOutputPlayback.mChannelsPerFrame,
            mDataByteSize := bytes, mData := data }
        else
          { mNumberChannels := u.mNumberChannels, mDataByteSize := 0, mData := none } }
  let reply := host kOutputBus 4096 bufs
  let self := self.log (.audioUnitRender kOutputBus 4096)
  let data := data.map (fun blk => overlay blk reply.stored)
  match playbackBuffers self u reply data with
  | .error f => some (.fault f, self)
  | .ok bufs =>
    if bufs.mBuffer0.mDataByteSize > 0 then
      if bufs.mNumberBuffers > 1 then
        some (.fault (.bufferListOverrun bufs.mNumberBuffers), self)
      else
        match render be fuel self 0 4096 (List.replicate bufs.mNumberBuffers bufs.mBuffer0) with
        | none => none
        | some (status, self) => some (.rendered status, self)
    else
      some (.skipped, self)

/-- The method `pushDataFromInput`: it only logs that capture is unsupported. -/
def pushDataFromInput (self : AudioUnitALSA) : AudioUnitALSA := self

/-- The method `processAudioEvent`; `revents` is what
`snd_pcm_poll_descriptors_revents` leaves in the local of that name.  The
result tells whether the pump ran and how it ended. -/
def processAudioEvent (host : Renderer) (u : Uninitialised) (be : Backend) (fuel : Nat)
    (self : AudioUnitALSA) (revents : Nat) : Option (Option PumpOutcome × AudioUnitALSA) :=
  let self := self.log .pollDescriptorsRevents
  let self := if revents &&& POLLIN != 0 then pushDataFromInput self else self
  if revents &&& POLLOUT != 0 then
    match requestDataForPlayback host u be fuel self with
    | none => none
    | some (outcome, self) => some (some outcome, self)
  else
    some (none, self)

end AudioUnitALSA

/-- The calls a `do_write` block makes when the backend answers `n` transient
errors in a row, starting with its write number `first`: each failed `call`
is followed by a recovery with the error returned, then `call` is made once
more. -/
def retryEvents (call : Event) (pcm : Option PcmHandle) (wr : Nat → Int) :
    Nat → Nat → List Event
  | _, 0 => [call]
  | first, n + 1 => call :: .recover pcm (wr first) :: retryEvents call pcm wr (first + 1) n

/-- The session after a `do_write` block that saw `n` transient answers: the
calls of `retryEvents` are logged and `n + 1` writes are counted. -/
def afterWrites (self : AudioUnitALSA) (call : Event) (wr : Nat → Int) (n : Nat) :
    AudioUnitALSA :=
  { self with
    trace := self.trace ++ retryEvents call self.m_pcmOutput wr self.writes n,
    writes := self.writes + (n + 1) }

/-- The write call `renderInterleavedOutput` makes for buffer `b`. -/
def interleavedCall (self : AudioUnitALSA) (b : AudioBuffer) : Event :=
  .writei self.m_pcmOutput b.mData
    (toInt32 (b.mDataByteSize / self.m_configOutputPlayback.mBytesPerFrame))

/-- The write call `renderPlanarOutput` makes for the buffer list `ioData`. -/
def planarCall (self : AudioUnitALSA) (ioData : List AudioBuffer) : Event :=
  .writen self.m_pcmOutput (ioData.map (fun b => b.mData))
    (toInt32 (toUInt32 (toInt32 (AudioUnitALSA.firstByteSize ioData)) /
      self.m_configOutputPlayback.mBytesPerFrame))

/-- Both layout checks of `renderPlanarOutput` pass: the buffer count equals
`m_configOutputCapture.mChannelsPerFrame` and no later buffer differs in size
from the first. -/
def planarChecksPass (self : AudioUnitALSA) (ioData : List AudioBuffer) : Prop :=
  ioData.length = self.m_configOutputCapture.mChannelsPerFrame ∧
  (ioData.drop 1).any
    (fun b => toUInt32 (toInt32 (AudioUnitALSA.firstByteSize ioData)) != b.mDataByteSize) = false

/-- Some configuration step of `initOutput` fails: a backend call answers a
non-zero error code or the format translator rejects the descriptor. -/
def initOutputFails (be : Backend) (self : AudioUnitALSA) : Prop :=
  be.pcmOpen ≠ 0 ∨ be.hwParamsMalloc ≠ 0 ∨ be.hwParamsAny ≠ 0 ∨ be.hwParamsSetAccess ≠ 0 ∨
  (alsaFormatForASBD self.m_configOutputPlayback).toOption = none ∨
  be.hwParamsSetFormat ≠ 0 ∨ be.hwParamsSetRateNear ≠ 0 ∨ be.hwParamsSetChannels ≠ 0 ∨
  be.hwParams ≠ 0 ∨ be.swParamsMalloc ≠ 0 ∨ be.swParamsCurrent ≠ 0 ∨
  be.swParamsSetAvailMin ≠ 0 ∨ be.swParamsSetStartThreshold ≠ 0 ∨ be.swParams ≠ 0

/-- Resources held by the device library: open streams, hardware parameter
objects, software parameter objects. -/
structure Held where
  streams : Nat
  hwObjects : Nat
  swObjects : Nat
  deriving DecidableEq, Repr

/-- Resource accounting of one call; `none` when an object is released that is
not held (a double free). -/
def Held.step (r : Held) : Event → Option Held
  | .pcmOpen err => some (if err = 0 then { r with streams := r.streams + 1 } else r)
  | .pcmClose _ => if r.streams = 0 then none else some { r with streams := r.streams - 1 }
  | .hwParamsMalloc err =>
    some (if err = 0 then { r with hwObjects := r.hwObjects + 1 } else r)
  | .hwParamsFree =>
    if r.hwObjects = 0 then none else some { r with hwObjects := r.hwObjects - 1 }
  | .swParamsMalloc err =>
    some (if err = 0 then { r with swObjects := r.swObjects + 1 } else r)
  | .swParamsFree =>
    if r.swObjects = 0 then none else some { r with swObjects := r.swObjects - 1 }
  | _ => some r

/-- Resource accounting of a sequence of calls. -/
def Held.run (r : Held) : List Event → Option Held
  | [] => some r
  | e :: es =>
    match r.step e with
    | none => none
    | some r => r.run es

/-! ## Concrete sessions and backends used in the examples -/

/-- A session on which `init` has not run: both streams closed, nothing
logged. -/
def closedUnit (enableOutput enableInput planar allocate : Bool)
    (playback capture : AudioStreamBasicDescription) : AudioUnitALSA :=
  { m_pcmOutput := none, m_pcmInput := none, m_sources := [],
    m_enableOutput := enableOutput, m_enableInput := enableInput,
    m_shouldAllocateBuffer := allocate,
    m_configOutputPlayback := playback, m_configOutputCapture := capture,
    outputPlanar := planar, inputPlanar := planar, inputProcSet := false,
    trace := [], writes := 0 }

/-- A backend whose configuration calls all succeed, whose `snd_pcm_open`
stores handle 7, and whose write calls answer `wr`. -/
def willingBackend (wr : Nat → Int) : Backend :=
  { pcmOpen := 0, handle := 7, hwParamsMalloc := 0, hwParamsAny := 0, hwParamsSetAccess := 0,
    hwParamsSetFormat := 0, hwParamsSetRateNear := 0, hwParamsSetChannels := 0, hwParams := 0,
    swParamsMalloc := 0, swParamsCurrent := 0, swParamsSetAvailMin := 0,
    swParamsSetStartThreshold := 0, swParams := 0, writeResult := wr }

/-- A backend that rejects the channel count with `-EINVAL`. -/
def channelRejectingBackend : Backend :=
  { willingBackend (fun _ => 0) with hwParamsSetChannels := -22 }

/-- A session whose output stream is open with handle 7. -/
def readyUnit (planar allocate : Bool)
    (playback capture : AudioStreamBasicDescription) : AudioUnitALSA :=
  { closedUnit true false planar allocate playback capture with m_pcmOutput := some 7 }

/-- Signed 16-bit little-endian stereo at 48000 Hz, 4 bytes per frame. -/
def stereo16 : AudioStreamBasicDescription :=
  pcmDescriptor kAudioFormatFlagIsSignedInteger 16

/-- Write answers of a device that underruns twice and then takes two
frames. -/
def underrunsTwice : Nat → Int := fun k => if k < 2 then -EPIPE else 2

/-- An 8-byte buffer: two frames of `stereo16`. -/
def twoFrames : AudioBuffer :=
  { mNumberChannels := 2, mDataByteSize := 8, mData := some [1, 2, 3, 4, 5, 6, 7, 8] }

/-- A 10-byte buffer: two frames of `stereo16` and two bytes more. -/
def twoFramesAndAHalf : AudioBuffer :=
  { mNumberChannels := 2, mDataByteSize := 10, mData := some [1, 2, 3, 4, 5, 6, 7, 8, 9, 10] }

/-- Eight-bit mono, one byte per frame. -/
def mono8 : AudioStreamBasicDescription :=
  { pcmDescriptor kAudioFormatFlagIsSignedInteger 8 with
    mBytesPerPacket := 1, mBytesPerFrame := 1, mChannelsPerFrame := 1 }

/-- A buffer of 2^31 bytes (its content does not matter, it is taken to be
zeros). -/
def hugeBuffer : AudioBuffer :=
  { mNumberChannels := 1, mDataByteSize := 2147483648,
    mData := some (List.replicate 2147483648 0) }

/-- A renderer that fails with status -1 and leaves the buffer list and the
memory as it found them. -/
def failingRenderer : Renderer :=
  fun _ _ bufs => { err := -1, bufs := bufs, stored := [] }

/-- A renderer that fails with status -1 after announcing `n` bytes in the
first buffer. -/
def failingRendererLeaving (n : Nat) : Renderer :=
  fun _ _ bufs =>
    { err := -1, bufs := { bufs with mBuffer0 := { bufs.mBuffer0 with mDataByteSize := n } },
      stored := [] }

/-- A renderer that, asked for 4096 frames of bus 0, succeeds with one buffer
of 4096 x 4 bytes pointing at `data`, and fails for any other request. -/
def stereoRenderer (data : Option Block) (stored : List Nat) : Renderer :=
  fun bus frames bufs =>
    if bus = 0 ∧ frames = 4096 then
      { err := noErr,
        bufs := { mNumberBuffers := 1,
                  mBuffer0 := { mNumberChannels := 2, mDataByteSize := 16384, mData := data } },
        stored := stored }
    else
      { err := paramErr, bufs := bufs, stored := [] }

/-- Uninitialised memory that reads as the byte 0xAA. -/
def staleMemory : Uninitialised :=
  { heapByte := fun _ => 170, mNumberChannels := 0 }

/-- The session `init` produces from `closedUnit true false false allocate
stereo16 stereo16` on a willing backend. -/
def negotiatedStereoUnit (allocate : Bool) : AudioUnitALSA :=
  { closedUnit true false false allocate stereo16 stereo16 with
    m_pcmOutput := some 7,
    trace :=
      [.pcmOpen 0, .hwParamsMalloc 0, .hwParamsAny, .hwParamsSetAccess .RW_INTERLEAVED,
       .hwParamsSetFormat .S16_LE, .hwParamsSetRateNear 48000, .hwParamsSetChannels 2,
       .hwParams, .hwParamsFree, .swParamsMalloc 0, .swParamsCurrent,
       .swParamsSetAvailMin 4096, .swParamsSetStartThreshold 0, .swParams, .swParamsFree] }

/-! ## Format translator -/

/-- C1 (as stated, refuted): a linear-PCM descriptor with the float flag set
and 64 bits per channel is translated to the little-endian float format, it
does not fail with the invalid-bit-depth error. -/
theorem C1_float_bypasses_bit_depth :
    (pcmDescriptor kAudioFormatFlagIsFloat 64).mFormatID = kAudioFormatLinearPCM ∧
    (pcmDescriptor kAudioFormatFlagIsFloat 64).mBitsPerChannel ∉ [8, 16, 24, 32] ∧
    alsaFormatForASBD (pcmDescriptor kAudioFormatFlagIsFloat 64) = .ok .FLOAT_LE := by
  decide

/-- C1 (amended): a descriptor whose format ID is not linear PCM fails with the
unsupported-format error whatever its flags and bit depth; a linear-PCM
descriptor with the float flag clear and a bit depth outside 8, 16, 24, 32
fails with the invalid-bit-depth error whatever its signed and big-endian
flags. -/
theorem C1_translator_errors (asbd : AudioStreamBasicDescription) :
    (asbd.mFormatID ≠ kAudioFormatLinearPCM →
      alsaFormatForASBD asbd = .error .unsupportedFormatID) ∧
    (asbd.mFormatID = kAudioFormatLinearPCM → isFloat asbd = false →
      asbd.mBitsPerChannel ∉ [8, 16, 24, 32] →
      alsaFormatForASBD asbd = .error .invalidBitsPerChannel) := by
  constructor
  · intro h
    simp [alsaFormatForASBD, h]
  · intro h hf hb
    simp only [List.mem_cons, List.mem_singleton, List.not_mem_nil, or_false, not_or] at hb
    obtain ⟨h8, h16, h24, h32⟩ := hb
    unfold alsaFormatForASBD
    rw [if_pos h, hf]
    simp only [Bool.false_eq_true, if_false]

/-- C2 (as stated, refuted): the signed 8-bit big-endian and the signed 8-bit
little-endian descriptors (float flag clear) differ in endianness and are
translated to the same device format. -/
theorem C2_eight_bit_ignores_endianness :
    isFloat (pcmDescriptor 6 8) = false ∧ isFloat (pcmDescriptor 4 8) = false ∧
    isSigned (pcmDescriptor 6 8) = isSigned (pcmDescriptor 4 8) ∧
    (pcmDescriptor 6 8).mBitsPerChannel = (pcmDescriptor 4 8).mBitsPerChannel ∧
    isBE (pcmDescriptor 6 8) ≠ isBE (pcmDescriptor 4 8) ∧
    alsaFormatForASBD (pcmDescriptor 6 8) = alsaFormatForASBD (pcmDescriptor 4 8) := by
  decide

/-- C2 (amended): for linear-PCM descriptors with the float flag clear, two
descriptors that are translated to the same device format have the same bit
depth and the same signedness, and, unless the depth is 8, the same
endianness (at depth 8 the result is S8 or U8 by signedness alone, so the 16
combinations yield 14 formats); with the float flag set the result is the
float format of the matching endianness. -/
theorem C2_translator_mapping (a b : AudioStreamBasicDescription)
    (ha : a.mFormatID = kAudioFormatLinearPCM) (hb : b.mFormatID = kAudioFormatLinearPCM) :
    (isFloat a = false → isFloat b = false →
      a.mBitsPerChannel ∈ [8, 16, 24, 32] → b.mBitsPerChannel ∈ [8, 16, 24, 32] →
      alsaFormatForASBD a = alsaFormatForASBD b →
      a.mBitsPerChannel = b.mBitsPerChannel ∧ isSigned a = isSigned b ∧
      (a.mBitsPerChannel ≠ 8 → isBE a = isBE b)) ∧
    (isFloat a = false → a.mBitsPerChannel = 8 →
      alsaFormatForASBD a = .ok (if isSigned a then .S8 else .U8)) ∧
    (isFloat a = true →
      alsaFormatForASBD a = .ok (if isBE a then .FLOAT_BE else .FLOAT_LE)) ∧
    (integerCombinations.map alsaFormatForASBD).dedup.length = 14 := by
  refine ⟨?_, ?_, ?_, by decide⟩
  · intro hfa hfb hda hdb
    simp only [List.mem_cons, List.mem_singleton, List.not_mem_nil, or_false] at hda hdb
    unfold alsaFormatForASBD
    rw [if_pos ha, if_pos hb, hfa, hfb]
    cases hsa : isSigned a <;> cases hsb : isSigned b <;>
      cases hea : isBE a <;> cases heb : isBE b <;>
      rcases hda with h | h | h | h <;> rcases hdb with h' | h' | h' | h' <;>
      simp [h, h']
  · intro hfa h8
    unfold alsaFormatForASBD
    rw [if_pos ha, hfa, h8]
    cases isSigned a <;> rfl
  · intro hfa
    unfold alsaFormatForASBD
    rw [if_pos ha, hfa]
    rfl

/-- Witness of `C2_translator_mapping`: two signed 16-bit little-endian
descriptors whose flag words differ in an unrelated bit, and a float
descriptor. -/
theorem C2_translator_mapping_witness :
    ((pcmDescriptor 4 16).mBitsPerChannel = (pcmDescriptor 12 16).mBitsPerChannel ∧
      isSigned (pcmDescriptor 4 16) = isSigned (pcmDescriptor 12 16) ∧
      ((pcmDescriptor 4 16).mBitsPerChannel ≠ 8 →
        isBE (pcmDescriptor 4 16) = isBE (pcmDescriptor 12 16))) ∧
    alsaFormatForASBD (pcmDescriptor 3 32) = .ok .FLOAT_BE :=
  ⟨(C2_translator_mapping (pcmDescriptor 4 16) (pcmDescriptor 12 16) rfl rfl).1
      (by decide) (by decide) (by decide) (by decide) (by decide),
   (C2_translator_mapping (pcmDescriptor 3 32) (pcmDescriptor 3 32) rfl rfl).2.2.1
     (by decide)⟩

/-- Witness of `C1_translator_errors`: a 12-bit signed linear-PCM descriptor
and a descriptor that is not linear PCM. -/
theorem C1_translator_errors_witness :
    alsaFormatForASBD (pcmDescriptor 4 12) = .error .invalidBitsPerChannel ∧
    alsaFormatForASBD { pcmDescriptor 4 16 with mFormatID := 0 } = .error .unsupportedFormatID :=
  ⟨(C1_translator_errors (pcmDescriptor 4 12)).2 (by decide) (by decide) (by decide),
   (C1_translator_errors { pcmDescriptor 4 16 with mFormatID := 0 }).1 (by decide)⟩

/-! ## Lifecycle -/

namespace AudioUnitALSA

@[simp] theorem log_m_pcmOutput (self : AudioUnitALSA) (e : Event) :
    (self.log e).m_pcmOutput = self.m_pcmOutput := rfl
@[simp] theorem log_m_pcmInput (self : AudioUnitALSA) (e : Event) :
    (self.log e).m_pcmInput = self.m_pcmInput := rfl
@[simp] theorem log_trace (self : AudioUnitALSA) (e : Event) :
    (self.log e).trace = self.trace ++ [e] := rfl
@[simp] theorem log_outputPlanar (self : AudioUnitALSA) (e : Event) :
    (self.log e).outputPlanar = self.outputPlanar := rfl
@[simp] theorem log_config (self : AudioUnitALSA) (e : Event) :
    (self.log e).m_configOutputPlayback = self.m_configOutputPlayback := rfl
@[simp] theorem setPcmOutput_m_pcmOutput (self : AudioUnitALSA) (p : Option PcmHandle) :
    (self.setPcmOutput p).m_pcmOutput = p := rfl
@[simp] theorem setPcmOutput_m_pcmInput (self : AudioUnitALSA) (p : Option PcmHandle) :
    (self.setPcmOutput p).m_pcmInput = self.m_pcmInput := rfl
@[simp] theorem setPcmOutput_trace (self : AudioUnitALSA) (p : Option PcmHandle) :
    (self.setPcmOutput p).trace = self.trace := rfl
@[simp] theorem setPcmOutput_outputPlanar (self : AudioUnitALSA) (p : Option PcmHandle) :
    (self.setPcmOutput p).outputPlanar = self.outputPlanar := rfl
@[simp] theorem setPcmOutput_config (self : AudioUnitALSA) (p : Option PcmHandle) :
    (self.setPcmOutput p).m_configOutputPlayback = self.m_configOutputPlayback := rfl
@[simp] theorem setPcmInput_m_pcmOutput (self : AudioUnitALSA) (p : Option PcmHandle) :
    (self.setPcmInput p).m_pcmOutput = self.m_pcmOutput := rfl
@[simp] theorem setPcmInput_m_pcmInput (self : AudioUnitALSA) (p : Option PcmHandle) :
    (self.setPcmInput p).m_pcmInput = p := rfl
@[simp] theorem setPcmInput_trace (self : AudioUnitALSA) (p : Option PcmHandle) :
    (self.setPcmInput p).trace = self.trace := rfl

/-- What `initOutput` does to a session whose output stream is closed. -/
theorem initOutput_spec (be : Backend) (self : AudioUnitALSA) (hOut : self.m_pcmOutput = none) :
    (self.initOutput be).2.m_pcmInput = self.m_pcmInput ∧
    ((self.initOutput be).1 = none → (self.initOutput be).2.m_pcmOutput = some be.handle) ∧
    (initOutputFails be self → (self.initOutput be).1 ≠ none) ∧
    ∃ evs, (self.initOutput be).2.trace = self.trace ++ evs ∧
      Held.run ⟨0, 0, 0⟩ evs =
        some ⟨if (self.initOutput be).2.m_pcmOutput = none then 0 else 1, 0, 0⟩ := by
  simp only [initOutput, initOutputTry]
  by_cases h1 : be.pcmOpen = 0
  swap
  · simp [h1, hOut, initOutputFails, Held.run, Held.step]
  by_cases h2 : be.hwParamsMalloc = 0
  swap
  · cases hp : self.outputPlanar <;>
      simp [h1, h2, hp, hOut, initOutputFails, Held.run, Held.step, Except.toOption]
  by_cases h3 : be.hwParamsAny = 0
  swap
  · cases hp : self.outputPlanar <;>
      simp [h1, h2, h3, hp, hOut, initOutputFails, Held.run, Held.step, Except.toOption]
  by_cases h4 : be.hwParamsSetAccess = 0
  swap
  · cases hp : self.outputPlanar <;>
      simp [h1, h2, h3, h4, hp, hOut, initOutputFails, Held.run, Held.step, Except.toOption]
  cases hfmt : alsaFormatForASBD self.m_configOutputPlayback with
  | error e =>
    cases hp : self.outputPlanar <;>
      simp [h1, h2, h3, h4, hfmt, hp, hOut, initOutputFails, Held.run, Held.step, Except.toOption]
  | ok format =>
  by_cases h6 : be.hwParamsSetFormat = 0
  swap
  · cases hp : self.outputPlanar <;>
      simp [h1, h2, h3, h4, hfmt, h6, hp, hOut, initOutputFails, Held.run, Held.step, Except.toOption]
  by_cases h7 : be.hwParamsSetRateNear = 0
  swap
  · cases hp : self.outputPlanar <;>
      simp [h1, h2, h3, h4, hfmt, h6, h7, hp, hOut, initOutputFails, Held.run, Held.step, Except.toOption]
  by_cases h8 : be.hwParamsSetChannels = 0
  swap
  · cases hp : self.outputPlanar <;>
      simp [h1, h2, h3, h4, hfmt, h6, h7, h8, hp, hOut, initOutputFails, Held.run, Held.step, Except.toOption]
  by_cases h9 : be.hwParams = 0
  swap
  · cases hp : self.outputPlanar <;>
      simp [h1, h2, h3, h4, hfmt, h6, h7, h8, h9, hp, hOut, initOutputFails, Held.run, Held.step, Except.toOption]
  by_cases h10 : be.swParamsMalloc = 0
  swap
  · cases hp : self.outputPlanar <;>
      simp [h1, h2, h3, h4, hfmt, h6, h7, h8, h9, h10, hp, hOut, initOutputFails, Held.run, Held.step, Except.toOption]
  by_cases h11 : be.swParamsCurrent = 0
  swap
  · cases hp : self.outputPlanar <;>
      simp [h1, h2, h3, h4, hfmt, h6, h7, h8, h9, h10, h11, hp, hOut, initOutputFails, Held.run, Held.step, Except.toOption]
  by_cases h12 : be.swParamsSetAvailMin = 0
  swap
  · cases hp : self.outputPlanar <;>
      simp [h1, h2, h3, h4, hfmt, h6, h7, h8, h9, h10, h11, h12, hp, hOut, initOutputFails, Held.run, Held.step, Except.toOption]
  by_cases h13 : be.swParamsSetStartThreshold = 0
  swap
  · cases hp : self.outputPlanar <;>
      simp [h1, h2, h3, h4, hfmt, h6, h7, h8, h9, h10, h11, h12, h13, hp, hOut, initOutputFails, Held.run, Held.step, Except.toOption]
  by_cases h14 : be.swParams = 0
  swap
  · cases hp : self.outputPlanar <;>
      simp [h1, h2, h3, h4, hfmt, h6, h7, h8, h9, h10, h11, h12, h13, h14, hp, hOut, initOutputFails, Held.run, Held.step, Except.toOption]
  cases hp : self.outputPlanar <;>
    simp [h1, h2, h3, h4, hfmt, h6, h7, h8, h9, h10, h11, h12, h13, h14, hp, hOut, initOutputFails, Held.run, Held.step, Except.toOption]

theorem deinit_spec (self : AudioUnitALSA) (hIn : self.m_pcmInput = none) :
    (self.deinit).2.m_pcmOutput = none ∧ (self.deinit).2.m_pcmInput = none ∧
    (self.deinit).2.trace =
      self.trace ++ (match self.m_pcmOutput with
        | some pcm => [Event.pcmClose pcm]
        | none => []) := by
  unfold deinit
  cases h : self.m_pcmOutput <;> simp [hIn, h]

theorem init_closed (be : Backend) (self : AudioUnitALSA)
    (hOut : self.m_pcmOutput = none) (hIn : self.m_pcmInput = none)
    (hEn : self.m_enableOutput = true) :
    self.init be =
      match (self.initOutput be).1 with
      | some _ => (kAudioUnitErr_FailedInitialization, ((self.initOutput be).2.deinit).2)
      | none => (noErr, (self.initOutput be).2) := by
  unfold init
  simp only [hOut, hIn, hEn, Option.isSome_none, Bool.or_self, Bool.false_eq_true, if_false,
    if_true]
  rcases self.initOutput be with ⟨e, s1⟩
  cases e
  · simp only [initInput, ite_self]
  · rfl

end AudioUnitALSA

theorem Held.run_append (r : Held) (a b : List Event) :
    r.run (a ++ b) = (r.run a).bind (fun r => r.run b) := by
  induction a generalizing r with
  | nil => rfl
  | cons e es ih =>
    simp only [List.cons_append, Held.run]
    cases r.step e with
    | none => rfl
    | some r1 => exact ih r1

/-- C7: on a closed session with output enabled, when some open or negotiation
step of `initOutput` fails (the translator's two errors included), `init`
returns the failed-initialisation status, leaves both stream handles null, and
the calls it made release every stream and every hardware or software
parameter object they created exactly once (no object is left held and none
is released while not held). -/
theorem C7_failed_init_rolls_back (be : Backend) (self : AudioUnitALSA)
    (hOut : self.m_pcmOutput = none) (hIn : self.m_pcmInput = none)
    (hEn : self.m_enableOutput = true) (hFail : initOutputFails be self) :
    (self.init be).1 = kAudioUnitErr_FailedInitialization ∧
    (self.init be).2.m_pcmOutput = none ∧ (self.init be).2.m_pcmInput = none ∧
    ∃ evs, (self.init be).2.trace = self.trace ++ evs ∧
      Held.run ⟨0, 0, 0⟩ evs = some ⟨0, 0, 0⟩ := by
  obtain ⟨hin1, -, hthrow, evs, htr, hrun⟩ := AudioUnitALSA.initOutput_spec be self hOut
  have hne := hthrow hFail
  rw [AudioUnitALSA.init_closed be self hOut hIn hEn]
  cases he : (self.initOutput be).1 with
  | none => exact absurd he hne
  | some e =>
    obtain ⟨d1, d2, d3⟩ := AudioUnitALSA.deinit_spec (self.initOutput be).2 (hin1.trans hIn)
    refine ⟨rfl, d1, d2, ?_⟩
    simp only
    rw [d3, htr]
    cases hp : (self.initOutput be).2.m_pcmOutput with
    | none =>
      refine ⟨evs, by simp, ?_⟩
      rw [hrun]; simp [hp]
    | some pcm =>
      refine ⟨evs ++ [Event.pcmClose pcm], by simp, ?_⟩
      rw [Held.run_append, hrun]
      simp [hp, Held.run, Held.step]

/-- Witness of `C7_failed_init_rolls_back`: the backend rejects the channel
count. -/
theorem C7_failed_init_rolls_back_witness :
    ((closedUnit true false false true stereo16 stereo16).init channelRejectingBackend).1 =
      kAudioUnitErr_FailedInitialization ∧
    ((closedUnit true false false true stereo16 stereo16).init channelRejectingBackend).2.trace =
      [.pcmOpen 0, .hwParamsMalloc 0, .hwParamsAny, .hwParamsSetAccess .RW_INTERLEAVED,
       .hwParamsSetFormat .S16_LE, .hwParamsSetRateNear 48000, .hwParamsSetChannels 2,
       .hwParamsFree, .pcmClose 7] :=
  ⟨(C7_failed_init_rolls_back channelRejectingBackend
      (closedUnit true false false true stereo16 stereo16) rfl rfl rfl
      (by simp [initOutputFails, channelRejectingBackend, willingBackend])).1, by decide⟩

/-- C6 (as stated, refuted): with neither direction enabled, and with only the
input direction enabled, `init` succeeds on a closed session and the
immediately following `init` succeeds again. -/
theorem C6_second_init_succeeds_without_output :
    ((closedUnit false false false true stereo16 stereo16).init (willingBackend fun _ => 0)).1
      = noErr ∧
    ((((closedUnit false false false true stereo16 stereo16).init
      (willingBackend fun _ => 0)).2).init (willingBackend fun _ => 0)).1 = noErr ∧
    ((closedUnit false true false true stereo16 stereo16).init (willingBackend fun _ => 0)).1
      = noErr ∧
    ((((closedUnit false true false true stereo16 stereo16).init
      (willingBackend fun _ => 0)).2).init (willingBackend fun _ => 0)).1 = noErr ∧
    noErr ≠ kAudioUnitErr_Initialized := by
  decide

/-- C6 (amended): for every session state with output enabled, whatever the
input flag, if `init` returns success then an immediately following `init`
returns the already-initialised status and leaves the whole session,
including the log of backend calls, unchanged. -/
theorem C6_second_init_rejected (be be2 : Backend) (self : AudioUnitALSA)
    (hEn : self.m_enableOutput = true) (hOk : (self.init be).1 = noErr) :
    (self.init be).2.init be2 = (kAudioUnitErr_Initialized, (self.init be).2) := by
  by_cases hg : (self.m_pcmOutput.isSome || self.m_pcmInput.isSome) = true
  · have : self.init be = (kAudioUnitErr_Initialized, self) := by
      unfold AudioUnitALSA.init; rw [if_pos hg]
    rw [this] at hOk
    have hne : kAudioUnitErr_Initialized ≠ noErr := by decide
    exact absurd hOk hne
  · have hOut : self.m_pcmOutput = none := by
      cases h : self.m_pcmOutput <;> simp_all
    have hIn : self.m_pcmInput = none := by
      cases h : self.m_pcmInput <;> simp_all
    obtain ⟨-, hopen, -, -⟩ := AudioUnitALSA.initOutput_spec be self hOut
    rw [AudioUnitALSA.init_closed be self hOut hIn hEn] at hOk ⊢
    cases he : (self.initOutput be).1 with
    | some e =>
      rw [he] at hOk
      have hne : kAudioUnitErr_FailedInitialization ≠ noErr := by decide
      exact absurd hOk hne
    | none =>
      simp only
      unfold AudioUnitALSA.init
      rw [hopen he]
      rfl

/-- Witness of `C6_second_init_rejected`: a successful `init` with output
enabled followed by a second `init`. -/
theorem C6_second_init_rejected_witness :
    ((closedUnit true true false true stereo16 stereo16).init (willingBackend fun _ => 0)).1
      = noErr ∧
    (((closedUnit true true false true stereo16 stereo16).init
        (willingBackend fun _ => 0)).2.init channelRejectingBackend).1
      = kAudioUnitErr_Initialized :=
  ⟨by decide, congrArg Prod.fst (C6_second_init_rejected (willingBackend fun _ => 0)
    channelRejectingBackend (closedUnit true true false true stereo16 stereo16) rfl
    (by decide))⟩

/-! ## Device writes -/

theorem isTransient_neg {wr : Int} (h : isTransient wr) : wr < 0 := by
  rcases h with h | h <;> rw [h] <;> decide

theorem afterWrites_zero (self : AudioUnitALSA) (call : Event) (wr : Nat → Int) :
    afterWrites self call wr 0 = self.logWrite call := rfl

theorem afterWrites_succ (self : AudioUnitALSA) (call : Event) (wr : Nat → Int) (n : Nat) :
    afterWrites ((self.logWrite call).log (.recover self.m_pcmOutput (wr self.writes)))
      call wr n = afterWrites self call wr (n + 1) := by
  simp [afterWrites, AudioUnitALSA.logWrite, AudioUnitALSA.log, retryEvents, Nat.add_assoc,
    Nat.add_comm 1]

/-- After `n` transient answers and one answer that is not transient the
`do_write` block has made `n + 1` write calls and `n` recoveries and ends with
the last answer. -/
theorem doWrite_retries (be : Backend) (call : Event) :
    ∀ (n fuel : Nat) (self : AudioUnitALSA), n < fuel →
      (∀ k, k < n → isTransient (be.writeResult (self.writes + k))) →
      ¬ isTransient (be.writeResult (self.writes + n)) →
      AudioUnitALSA.doWrite be call fuel self =
        some (if be.writeResult (self.writes + n) < 0 then some kAudioUnitErr_NoConnection
              else none, afterWrites self call be.writeResult n) := by
  intro n
  induction n with
  | zero =>
    intro fuel self hf _ hlast
    obtain ⟨f, rfl⟩ : ∃ f, fuel = f + 1 := ⟨fuel - 1, by omega⟩
    simp only [Nat.add_zero] at hlast ⊢
    unfold AudioUnitALSA.doWrite
    simp only [afterWrites_zero]
    have hnt : ¬ (be.writeResult self.writes = -EINTR ∨ be.writeResult self.writes = -EPIPE) :=
      hlast
    by_cases hneg : be.writeResult self.writes < 0
    · simp only [hneg, if_true, hnt, if_false]
    · simp only [hneg, if_false]
  | succ n ih =>
    intro fuel self hf htr hlast
    obtain ⟨f, rfl⟩ : ∃ f, fuel = f + 1 := ⟨fuel - 1, by omega⟩
    have h0 : isTransient (be.writeResult self.writes) := by
      simpa using htr 0 (Nat.succ_pos n)
    unfold AudioUnitALSA.doWrite
    have hneg := isTransient_neg h0
    have hor : be.writeResult self.writes = -EINTR ∨ be.writeResult self.writes = -EPIPE := h0
    simp only [hneg, if_true, hor]
    have hw : ((self.logWrite call).log
        (.recover (self.logWrite call).m_pcmOutput (be.writeResult self.writes))).writes
        = self.writes + 1 := rfl
    rw [ih f _ (by omega)
      (by intro k hk; rw [hw]; have := htr (k + 1) (by omega); rwa [Nat.add_assoc, Nat.add_comm 1])
      (by rw [hw, Nat.add_assoc, Nat.add_comm 1]; exact hlast)]
    rw [hw, Nat.add_assoc, Nat.add_comm 1 n]
    have hp : (self.logWrite call).m_pcmOutput = self.m_pcmOutput := rfl
    rw [hp, afterWrites_succ]

/-- While the backend keeps answering transient errors the `do_write` block
keeps retrying: fuel for `n` attempts is not enough when the first `n` answers
are transient. -/
theorem doWrite_starved (be : Backend) (call : Event) :
    ∀ (fuel n : Nat) (self : AudioUnitALSA), fuel ≤ n →
      (∀ k, k < n → isTransient (be.writeResult (self.writes + k))) →
      AudioUnitALSA.doWrite be call fuel self = none := by
  intro fuel
  induction fuel with
  | zero => intro n self _ _; rfl
  | succ f ih =>
    intro n self hf htr
    have h0 : isTransient (be.writeResult self.writes) := by
      simpa using htr 0 (by omega)
    unfold AudioUnitALSA.doWrite
    have hneg := isTransient_neg h0
    have hor : be.writeResult self.writes = -EINTR ∨ be.writeResult self.writes = -EPIPE := h0
    simp only [hneg, if_true, hor]
    apply ih (n - 1) _ (by omega)
    intro k hk
    have hw : ((self.logWrite call).log
        (.recover (self.logWrite call).m_pcmOutput (be.writeResult self.writes))).writes
        = self.writes + 1 := rfl
    rw [hw]
    have := htr (k + 1) (by omega)
    rwa [Nat.add_assoc, Nat.add_comm 1]

theorem toInt32_of_lt {n : Nat} (h : n < 2147483648) : toInt32 n = (n : Int) := by
  unfold toInt32
  have h1 : n % 4294967296 = n := Nat.mod_eq_of_lt (by omega)
  rw [h1, if_pos h]

theorem toUInt32_toInt32 {n : Nat} (h : n < 4294967296) : toUInt32 (toInt32 n) = n := by
  unfold toUInt32 toInt32
  have h1 : n % 4294967296 = n := Nat.mod_eq_of_lt h
  rw [h1]
  split <;> omega

theorem not_isTransient_of_nonneg {wr : Int} (h : 0 ≤ wr) : ¬ isTransient wr := by
  intro ht
  have := isTransient_neg ht
  omega

/-- The interleaved writer on a non-empty list: the first buffer's `do_write`
block, then the remaining buffers. -/
theorem renderInterleavedOutput_cons (be : Backend) (fuel : Nat) (self : AudioUnitALSA)
    (nf : Nat) (b : AudioBuffer) (rest : List AudioBuffer) :
    AudioUnitALSA.renderInterleavedOutput be fuel self nf (b :: rest) =
      match AudioUnitALSA.doWrite be (interleavedCall self b) fuel self with
      | none => none
      | some (some status, self) => some (status, self)
      | some (none, self) => AudioUnitALSA.renderInterleavedOutput be fuel self nf rest := rfl

/-- The planar writer once its two layout checks have passed: one `do_write`
block. -/
theorem renderPlanarOutput_accepted (be : Backend) (fuel : Nat) (self : AudioUnitALSA)
    (nf : Nat) (ioData : List AudioBuffer) (h : planarChecksPass self ioData) :
    AudioUnitALSA.renderPlanarOutput be fuel self nf ioData =
      match AudioUnitALSA.doWrite be (planarCall self ioData) fuel self with
      | none => none
      | some (some status, self) => some (status, self)
      | some (none, self) => some (noErr, self) := by
  obtain ⟨h1, h2⟩ := h
  unfold AudioUnitALSA.renderPlanarOutput
  simp only [ne_eq, h1, not_true_eq_false, if_false]
  rw [if_neg (by rw [h2]; simp)]
  rfl

/-- C3 (amended): each transient answer (`-EINTR` or `-EPIPE`) to a write of
`renderInterleavedOutput` or `renderPlanarOutput` is followed by one recovery
and a retry of the same write, for as long as the answers stay transient and
without any bound: when the first `n` answers are transient, fewer than
`n + 1` attempts never complete the write, and when the next answer is not
transient the write ends after exactly `n + 1` write calls and `n` recoveries,
reporting a failure if that answer is negative and continuing (interleaved) or
returning success (planar) otherwise. -/
theorem C3_transient_write_retried_until_settled (be : Backend) (self : AudioUnitALSA)
    (nf : Nat) (b : AudioBuffer) (rest ioData : List AudioBuffer) (n : Nat)
    (htr : ∀ k, k < n → isTransient (be.writeResult (self.writes + k))) :
    (∀ fuel, fuel ≤ n →
      AudioUnitALSA.renderInterleavedOutput be fuel self nf (b :: rest) = none ∧
      (planarChecksPass self ioData →
        AudioUnitALSA.renderPlanarOutput be fuel self nf ioData = none)) ∧
    (∀ fuel, n < fuel → ¬ isTransient (be.writeResult (self.writes + n)) →
      AudioUnitALSA.renderInterleavedOutput be fuel self nf (b :: rest) =
        (if be.writeResult (self.writes + n) < 0 then
          some (kAudioUnitErr_NoConnection,
            afterWrites self (interleavedCall self b) be.writeResult n)
        else
          AudioUnitALSA.renderInterleavedOutput be fuel
            (afterWrites self (interleavedCall self b) be.writeResult n) nf rest) ∧
      (planarChecksPass self ioData →
        AudioUnitALSA.renderPlanarOutput be fuel self nf ioData =
          some (if be.writeResult (self.writes + n) < 0 then kAudioUnitErr_NoConnection
                else noErr,
            afterWrites self (planarCall self ioData) be.writeResult n))) := by
  constructor
  · intro fuel hf
    constructor
    · rw [renderInterleavedOutput_cons, doWrite_starved be _ fuel n self hf htr]
    · intro hp
      rw [renderPlanarOutput_accepted be fuel self nf ioData hp,
        doWrite_starved be _ fuel n self hf htr]
  · intro fuel hf hlast
    constructor
    · rw [renderInterleavedOutput_cons, doWrite_retries be _ n fuel self hf htr hlast]
      by_cases hneg : be.writeResult (self.writes + n) < 0 <;> simp only [hneg, if_true, if_false]
    · intro hp
      rw [renderPlanarOutput_accepted be fuel self nf ioData hp,
        doWrite_retries be _ n fuel self hf htr hlast]
      by_cases hneg : be.writeResult (self.writes + n) < 0 <;> simp only [hneg, if_true, if_false]

/-- C3 (as stated, refuted): when the device answers two underruns and then
accepts the frames, both writers make a third write attempt after the second
transient error and return success instead of reporting the failure; three
writes and two recoveries are logged for the one buffer. -/
theorem C3_third_attempt_after_two_transient_errors :
    (AudioUnitALSA.renderInterleavedOutput (willingBackend underrunsTwice) 3
        (readyUnit false true stereo16 stereo16) 2 [twoFrames]).map
      (fun r => (r.1, r.2.writes, r.2.trace)) =
      some (noErr, 3,
        [.writei (some 7) twoFrames.mData 2, .recover (some 7) (-EPIPE),
         .writei (some 7) twoFrames.mData 2, .recover (some 7) (-EPIPE),
         .writei (some 7) twoFrames.mData 2]) ∧
    (AudioUnitALSA.renderPlanarOutput (willingBackend underrunsTwice) 3
        (readyUnit true true stereo16 stereo16) 2 [twoFrames, twoFrames]).map
      (fun r => (r.1, r.2.writes, r.2.trace)) =
      some (noErr, 3,
        [.writen (some 7) [twoFrames.mData, twoFrames.mData] 2, .recover (some 7) (-EPIPE),
         .writen (some 7) [twoFrames.mData, twoFrames.mData] 2, .recover (some 7) (-EPIPE),
         .writen (some 7) [twoFrames.mData, twoFrames.mData] 2]) := by
  decide

/-- Witness of `C3_transient_write_retried_until_settled`: two underruns, then
success; two attempts are not enough and three complete the write. -/
theorem C3_transient_write_retried_until_settled_witness :
    AudioUnitALSA.renderInterleavedOutput (willingBackend underrunsTwice) 2
        (readyUnit false true stereo16 stereo16) 2 [twoFrames] = none ∧
    AudioUnitALSA.renderInterleavedOutput (willingBackend underrunsTwice) 3
        (readyUnit false true stereo16 stereo16) 2 [twoFrames] =
      some (noErr, afterWrites (readyUnit false true stereo16 stereo16)
        (interleavedCall (readyUnit false true stereo16 stereo16) twoFrames) underrunsTwice 2) :=
  ⟨((C3_transient_write_retried_until_settled (willingBackend underrunsTwice)
      (readyUnit false true stereo16 stereo16) 2 twoFrames [] [] 2 (by decide)).1 2
      (by decide)).1,
   ((C3_transient_write_retried_until_settled (willingBackend underrunsTwice)
      (readyUnit false true stereo16 stereo16) 2 twoFrames [] [] 2 (by decide)).2 3
      (by decide) (by decide)).1⟩

/-- C9 (amended): for every interleaved buffer list whose buffers each hold
fewer than 2^31 frames and every positive bytes-per-frame, if the backend
answers each write with a non-negative frame count, `renderInterleavedOutput`
makes exactly one write per buffer, in buffer order, with frame count
`floor(byteLength / bytesPerFrame)`, no recovery and no retry, and returns
success. -/
theorem C9_interleaved_one_write_per_buffer (be : Backend) (fuel nf : Nat)
    (ioData : List AudioBuffer) (self : AudioUnitALSA)
    (_hbpf : 0 < self.m_configOutputPlayback.mBytesPerFrame) (hfuel : 0 < fuel)
    (hres : ∀ k, k < ioData.length → 0 ≤ be.writeResult (self.writes + k))
    (hfit : ∀ b ∈ ioData,
      b.mDataByteSize / self.m_configOutputPlayback.mBytesPerFrame < 2147483648) :
    AudioUnitALSA.renderInterleavedOutput be fuel self nf ioData =
      some (noErr,
        { self with
          trace := self.trace ++ ioData.map (fun b =>
            Event.writei self.m_pcmOutput b.mData
              ((b.mDataByteSize / self.m_configOutputPlayback.mBytesPerFrame : Nat) : Int)),
          writes := self.writes + ioData.length }) := by
  induction ioData generalizing self with
  | nil => simp [AudioUnitALSA.renderInterleavedOutput]
  | cons b rest ih =>
    have h0 : ¬ isTransient (be.writeResult (self.writes + 0)) :=
      not_isTransient_of_nonneg (hres 0 (by simp))
    rw [renderInterleavedOutput_cons,
      doWrite_retries be _ 0 fuel self hfuel (fun k hk => absurd hk (Nat.not_lt_zero k)) h0]
    have hnn : ¬ be.writeResult (self.writes + 0) < 0 := by
      have := hres 0 (by simp)
      omega
    simp only [hnn, if_false, afterWrites_zero]
    have hb := hfit b (by simp)
    rw [ih (self.logWrite (interleavedCall self b)) _hbpf
      (by
        intro k hk
        have := hres (k + 1) (by simp; omega)
        simpa [AudioUnitALSA.logWrite, Nat.add_assoc, Nat.add_comm 1] using this)
      (by
        intro b2 hb2
        exact hfit b2 (by simp [hb2]))]
    simp [AudioUnitALSA.logWrite, interleavedCall, toInt32_of_lt hb, Nat.add_assoc,
      Nat.add_comm 1]

/-- Witness of `C9_interleaved_one_write_per_buffer`: a buffer whose size is
not a multiple of the frame size, a short write (one frame of two taken), and a
further buffer. -/
theorem C9_interleaved_one_write_per_buffer_witness :
    (AudioUnitALSA.renderInterleavedOutput (willingBackend fun _ => 1) 1
        (readyUnit false true stereo16 stereo16) 2 [twoFramesAndAHalf, twoFrames]).map
      (fun r => (r.1, r.2.writes, r.2.trace)) =
      some (noErr, 2,
        [.writei (some 7) twoFramesAndAHalf.mData 2, .writei (some 7) twoFrames.mData 2]) := by
  rw [C9_interleaved_one_write_per_buffer (willingBackend fun _ => 1) 1 2
    [twoFramesAndAHalf, twoFrames] (readyUnit false true stereo16 stereo16)
    (by decide) (by decide) (by decide) (by decide)]
  decide

/-- One accepted write of one buffer, whatever its size. -/
theorem renderInterleavedOutput_single (be : Backend) (fuel : Nat) (self : AudioUnitALSA)
    (nf : Nat) (b : AudioBuffer) (hf : 0 < fuel) (h : 0 ≤ be.writeResult self.writes) :
    AudioUnitALSA.renderInterleavedOutput be fuel self nf [b] =
      some (noErr, self.logWrite (interleavedCall self b)) := by
  have h0 : ¬ isTransient (be.writeResult (self.writes + 0)) := not_isTransient_of_nonneg h
  have hnn : ¬ be.writeResult (self.writes + 0) < 0 := by
    have : 0 ≤ be.writeResult (self.writes + 0) := h
    omega
  rw [renderInterleavedOutput_cons,
    doWrite_retries be _ 0 fuel self hf (fun k hk => absurd hk (Nat.not_lt_zero k)) h0]
  simp only [hnn, if_false, afterWrites_zero]
  rfl

/-- C9 (as stated, refuted): for a buffer of 2^31 bytes at one byte per frame
and a backend that accepts every write, the frame count of the single write is
the `int` value -2147483648, not `floor(byteLength / bytesPerFrame)`. -/
theorem C9_frame_count_wraps_at_two_to_31 :
    (AudioUnitALSA.renderInterleavedOutput (willingBackend fun _ => 0) 1
        (readyUnit false true mono8 mono8) 4096 [hugeBuffer]).map
      (fun r => (r.1, r.2.trace)) =
      some (noErr, [.writei (some 7) hugeBuffer.mData (-2147483648)]) ∧
    ((hugeBuffer.mDataByteSize / mono8.mBytesPerFrame : Nat) : Int) ≠ -2147483648 := by
  constructor
  · rw [renderInterleavedOutput_single _ _ _ _ _ (by decide) (by decide)]
    have h : toInt32 (hugeBuffer.mDataByteSize / mono8.mBytesPerFrame) = -2147483648 := by
      decide
    simp only [Option.map_some', AudioUnitALSA.logWrite, interleavedCall]
    exact congrArg (fun x => some (noErr, [Event.writei (some 7) hugeBuffer.mData x])) h
  · decide

/-! ## Render adapter -/

/-- C8: for every bus number other than the output bus 0 and the input bus 1,
and every frame count and buffer list, `render` returns `paramErr` and hands
back the session unchanged (no device write is logged, no field is modified);
for bus 0 it returns exactly what `renderOutput` returns and for bus 1 exactly
what `renderInput` returns. -/
theorem C8_render_dispatches_by_bus (be : Backend) (fuel : Nat) (self : AudioUnitALSA)
    (inBusNumber inNumberFrames : Nat) (ioData : List AudioBuffer) :
    (inBusNumber ≠ kOutputBus → inBusNumber ≠ kInputBus →
      self.render be fuel inBusNumber inNumberFrames ioData = some (paramErr, self)) ∧
    self.render be fuel kOutputBus inNumberFrames ioData =
      self.renderOutput be fuel inNumberFrames ioData ∧
    self.render be fuel kInputBus inNumberFrames ioData =
      some (self.renderInput inNumberFrames ioData) := by
  refine ⟨?_, ?_, ?_⟩
  · intro h0 h1
    unfold AudioUnitALSA.render
    rw [if_neg h0, if_neg h1]
  · rfl
  · rfl

/-- Witness of `C8_render_dispatches_by_bus`: bus 2. -/
theorem C8_render_dispatches_by_bus_witness :
    (readyUnit false true stereo16 stereo16).render (willingBackend fun _ => 2) 1 2 2
      [twoFrames] = some (paramErr, readyUnit false true stereo16 stereo16) :=
  (C8_render_dispatches_by_bus (willingBackend fun _ => 2) 1
    (readyUnit false true stereo16 stereo16) 2 2 [twoFrames]).1 (by decide) (by decide)

/-- The planar writer rejects a buffer count that differs from the channel
count of `m_configOutputCapture`, without a device write. -/
theorem renderPlanarOutput_rejects_count (be : Backend) (fuel nf : Nat) (self : AudioUnitALSA)
    (ioData : List AudioBuffer)
    (h : ioData.length ≠ self.m_configOutputCapture.mChannelsPerFrame) :
    self.renderPlanarOutput be fuel nf ioData = some (paramErr, self) := by
  unfold AudioUnitALSA.renderPlanarOutput
  rw [if_pos h]

/-- The planar writer rejects buffers of unequal byte length, without a device
write. -/
theorem renderPlanarOutput_rejects_unequal_sizes (be : Backend) (fuel nf : Nat)
    (self : AudioUnitALSA) (ioData : List AudioBuffer)
    (hsz : ∀ b ∈ ioData, b.mDataByteSize < 4294967296)
    (hne : ∃ b ∈ ioData, b.mDataByteSize ≠ AudioUnitALSA.firstByteSize ioData) :
    self.renderPlanarOutput be fuel nf ioData = some (paramErr, self) := by
  unfold AudioUnitALSA.renderPlanarOutput
  split
  · rfl
  · cases ioData with
    | nil => obtain ⟨b, hb, _⟩ := hne; simp at hb
    | cons b0 rest =>
      obtain ⟨b, hb, hbne⟩ := hne
      have h0 : b0.mDataByteSize < 4294967296 := hsz b0 (by simp)
      simp only [AudioUnitALSA.firstByteSize] at hbne ⊢
      rw [toUInt32_toInt32 h0]
      have hmem : b ∈ rest := by
        rcases List.mem_cons.mp hb with h | h
        · exact absurd (by rw [h]) hbne
        · exact h
      have hany : (List.drop 1 (b0 :: rest)).any
          (fun b => b0.mDataByteSize != b.mDataByteSize) = true := by
        simp only [List.drop_succ_cons, List.drop_zero, List.any_eq_true]
        exact ⟨b, hmem, by simpa using fun h => hbne h.symm⟩
      simp only [hany, if_true]

/-- C4 (code at the failing input): the playback stream is stereo, the capture
descriptor is mono and one buffer is supplied.  The buffer count 1 differs
from the playback channel count 2, yet `renderPlanarOutput` compares it with
the capture channel count, accepts the list, issues a device write and returns
success. -/
theorem C4_count_checked_against_capture_channels :
    [twoFrames].length ≠
      (readyUnit true true stereo16 mono8).m_configOutputPlayback.mChannelsPerFrame ∧
    ((readyUnit true true stereo16 mono8).renderPlanarOutput (willingBackend fun _ => 2) 1 2
        [twoFrames]).map (fun r => (r.1, r.2.trace)) =
      some (noErr, [.writen (some 7) [twoFrames.mData] 2]) := by
  decide

/-! ## Playback pump -/

theorem length_newBytes (u : Uninitialised) (n : Nat) : (newBytes u n).length = n := by
  simp [newBytes]

theorem length_overlay (blk : Block) (stored : List Nat) :
    (overlay blk stored).length = blk.length := by
  simp [overlay]

theorem memsetZero_all (blk : Block) : memsetZero blk blk.length =
    some (List.replicate blk.length 0) := by
  simp [memsetZero]

/-- When the pump preallocates and the renderer fails, the buffer handed on
has byte size `mBytesPerFrame * 4096` (as a `UInt32`) and points at that
many zero bytes, whatever the renderer left in the list or in the memory. -/
theorem playbackBuffers_preallocated (self : AudioUnitALSA) (u : Uninitialised)
    (reply : RenderReply) (halloc : self.m_shouldAllocateBuffer = true)
    (herr : reply.err ≠ noErr) :
    self.playbackBuffers u reply
        (some (overlay
          (newBytes u ((self.m_configOutputPlayback.mBytesPerFrame * 4096) % 4294967296))
          reply.stored)) =
      .ok { reply.bufs with
        mBuffer0 := { reply.bufs.mBuffer0 with
          mData := some (List.replicate
            ((self.m_configOutputPlayback.mBytesPerFrame * 4096) % 4294967296) 0),
          mDataByteSize := (self.m_configOutputPlayback.mBytesPerFrame * 4096) % 4294967296 } }
    := by
  unfold AudioUnitALSA.playbackBuffers
  simp only [herr, ne_eq, not_false_eq_true, if_true, halloc, Bool.not_true, Bool.false_eq_true,
    if_false, Option.getD_some]
  have hlen : (overlay
      (newBytes u ((self.m_configOutputPlayback.mBytesPerFrame * 4096) % 4294967296))
      reply.stored).length = (self.m_configOutputPlayback.mBytesPerFrame * 4096) % 4294967296 := by
    rw [length_overlay, length_newBytes]
  have := memsetZero_all (overlay
      (newBytes u ((self.m_configOutputPlayback.mBytesPerFrame * 4096) % 4294967296))
      reply.stored)
  rw [hlen] at this
  rw [this]

/-- C5 (code at the failing input): the pump does not preallocate, the frame
size is 4 bytes and the renderer fails leaving the byte size of the first
buffer at 0 (first case) or at 100 (second case).  The silence storage is
allocated with that left-over size, 0 or 100 bytes, and `memset` then writes
4096 x 4 = 16384 zero bytes into it: the write runs past the allocation. -/
theorem C5_silence_storage_sized_by_leftover :
    ((readyUnit false false stereo16 stereo16).requestDataForPlayback failingRenderer
        staleMemory (willingBackend fun _ => 4096) 1).map (fun r => r.1) =
      some (.fault (.heapOverflow 0 16384)) ∧
    ((readyUnit false false stereo16 stereo16).requestDataForPlayback
        (failingRendererLeaving 100) staleMemory (willingBackend fun _ => 4096) 1).map
        (fun r => r.1) =
      some (.fault (.heapOverflow 100 16384)) := by
  decide

/-- The pump when the renderer succeeds with one non-empty buffer: the list is
passed to `render` as it is. -/
theorem requestDataForPlayback_rendered (host : Renderer) (u : Uninitialised) (be : Backend)
    (fuel : Nat) (self : AudioUnitALSA) (reply : RenderReply)
    (hreply : ∀ bufs, host kOutputBus 4096 bufs = reply) (herr : reply.err = noErr)
    (hone : reply.bufs.mNumberBuffers = 1) (hpos : 0 < reply.bufs.mBuffer0.mDataByteSize) :
    self.requestDataForPlayback host u be fuel =
      match (self.log (.audioUnitRender kOutputBus 4096)).render be fuel 0 4096
          [reply.bufs.mBuffer0] with
      | none => none
      | some (status, self) => some (.rendered status, self) := by
  unfold AudioUnitALSA.requestDataForPlayback
  simp only [hreply]
  have hpb : ∀ d, (self.log (.audioUnitRender kOutputBus 4096)).playbackBuffers u reply d =
      .ok reply.bufs := by
    intro d
    unfold AudioUnitALSA.playbackBuffers
    rw [if_neg (by simp [herr])]
  rw [hpb]
  simp only [gt_iff_lt, hpos, if_true, hone, Nat.lt_irrefl, if_false, List.replicate]

/-- C10: end to end, for the 48000 Hz signed 16-bit little-endian stereo
interleaved descriptor of 4 bytes per frame.  The translator yields S16_LE;
`init` on a willing backend succeeds and negotiates interleaved access with
that format; on a write-ready event the pump asks the renderer for 4096
frames of bus 0 (the renderer used here fails for any other request); the
renderer answers with one buffer of 16384 bytes, the device accepts the write,
and exactly one write of 4096 frames is logged and `render` returns
`noErr`.  This holds whether or not the pump preallocates, for every content
of the buffer and of uninitialised memory, and for every positive fuel. -/
theorem C10_end_to_end_stereo16 (allocate : Bool) (u : Uninitialised) (data : Option Block)
    (stored : List Nat) (fuel : Nat) :
    alsaFormatForASBD stereo16 = .ok .S16_LE ∧
    (closedUnit true false false allocate stereo16 stereo16).init
        (willingBackend fun _ => 4096) = (noErr, negotiatedStereoUnit allocate) ∧
    (negotiatedStereoUnit allocate).processAudioEvent (stereoRenderer data stored) u
        (willingBackend fun _ => 4096) (fuel + 1) POLLOUT =
      some (some (.rendered noErr),
        { negotiatedStereoUnit allocate with
          trace := (negotiatedStereoUnit allocate).trace ++
            [.pollDescriptorsRevents, .audioUnitRender 0 4096, .writei (some 7) data 4096],
          writes := 1 }) := by
  refine ⟨by decide, by cases allocate <;> decide, ?_⟩
  have hpoll : (POLLOUT &&& POLLIN != 0) = false := by decide
  have hpoll2 : (POLLOUT &&& POLLOUT != 0) = true := by decide
  unfold AudioUnitALSA.processAudioEvent
  simp only [hpoll, hpoll2, Bool.false_eq_true, if_false, if_true]
  rw [requestDataForPlayback_rendered (stereoRenderer data stored) u _ _ _
    { err := noErr,
      bufs := { mNumberBuffers := 1,
                mBuffer0 := { mNumberChannels := 2, mDataByteSize := 16384, mData := data } },
      stored := stored } (fun _ => rfl) rfl rfl (by show 0 < 16384; decide)]
  have hrender : AudioUnitALSA.render (willingBackend fun _ => 4096) (fuel + 1)
      (((negotiatedStereoUnit allocate).log .pollDescriptorsRevents).log
        (.audioUnitRender kOutputBus 4096)) 0 4096
      [{ mNumberChannels := 2, mDataByteSize := 16384, mData := data }] =
      AudioUnitALSA.renderInterleavedOutput (willingBackend fun _ => 4096) (fuel + 1)
      (((negotiatedStereoUnit allocate).log .pollDescriptorsRevents).log
        (.audioUnitRender kOutputBus 4096)) 4096
      [{ mNumberChannels := 2, mDataByteSize := 16384, mData := data }] := rfl
  simp only [hrender]
  rw [renderInterleavedOutput_single (willingBackend fun _ => 4096) (fuel + 1) _ 4096 _
    (Nat.succ_pos fuel) (by show (0 : Int) ≤ 4096; decide)]
  have hcount : toInt32 (16384 / 4) = 4096 := by decide
  have hcall : interleavedCall
      (((negotiatedStereoUnit allocate).log .pollDescriptorsRevents).log
        (.audioUnitRender kOutputBus 4096))
      { mNumberChannels := 2, mDataByteSize := 16384, mData := data } =
      .writei (some 7) data 4096 := by
    show Event.writei (some 7) data (toInt32 (16384 / 4)) = _
    rw [hcount]
  rw [hcall]
  rfl

end Darling
